import Mathlib

/-!
Shallow embedding of the WorkGraphsHelloMeshNodes sample
(HelloMeshNodes.h, HelloMeshNodes.cpp, D3D12Helper.cpp, ShaderSource.h).

The sample is a single-threaded Win32/D3D12 program.  Its control flow is
embedded as executable Lean functions:
 * graphics-API result codes (HRESULT) are Int, with S_OK = 0 and
   SUCCEEDED(hr) = (0 <= hr), as in winerror.h;
 * every `ERROR_QUIT(cond, msg)` call site becomes a `CheckedCall` record
   (the checked condition plus the error message); the macro prints the
   message and throws, terminating the process, which is modelled as an
   abort message ending the run;
 * the outcomes of the external D3D12/DXGI calls are an explicit
   environment record threaded into each function;
 * the HLSL work graph (ShaderSource.h) is embedded by its record-routing
   behaviour: per-invocation output record counts as a function of the
   remaining recursion levels.

Lean identifiers follow the source names except where the source name is
unavailable; renamings are noted next to each definition.
-/

namespace HelloMeshNodes

/-! ### Constants from HelloMeshNodes.h and d3d12.h -/

/-- `constexpr UINT WindowSize = 720;` (HelloMeshNodes.h:34). -/
def WindowSize : Nat := 720

/-- `static constexpr UINT FrameCount = 2;` (HelloMeshNodes.h:49). -/
def FrameCount : Nat := 2

/-- HRESULT values are 32-bit signed integers; modelled as Int. -/
abbrev HRESULT := Int

/-- `S_OK` is 0. -/
def S_OK : HRESULT := 0

/-- `SUCCEEDED(hr)` is `hr >= 0` (winerror.h). -/
def SUCCEEDED (hr : HRESULT) : Bool := decide (0 ≤ hr)

/-- The exact-equality check `hr == S_OK` used by most call sites. -/
def hrEqSOk (hr : HRESULT) : Bool := decide (hr = S_OK)

/-- `D3D12_WORK_GRAPHS_TIER_1_1 = 11` (d3d12.h enum value). -/
def D3D12_WORK_GRAPHS_TIER_1_1 : Nat := 11

/-! ### The ERROR_QUIT pattern

`#define ERROR_QUIT(value, ...) if(!(value)) { printf("ERROR: "); ...;
throw 0; }` (HelloMeshNodes.cpp:28, D3D12Helper.cpp:28).  A checked call is
the pair of the checked condition and the error message printed on failure.
-/

/-- `ERROR_QUIT(cond, msg)`: `none` when the condition holds (execution
continues), `some msg` when it fails (the message is printed and the
process terminates via `throw 0`). -/
def ERROR_QUIT (cond : Bool) (msg : String) : Option String :=
  if cond then none else some msg

/-- One call into the graphics API followed by an `ERROR_QUIT` check:
the error message and whether the check passes in the given environment. -/
structure CheckedCall where
  msg : String
  pass : Bool
deriving DecidableEq

/-- Run a sequence of checked calls in source order: each call executes,
then its `ERROR_QUIT` either continues or aborts the whole run.  Returns
the messages of the calls that executed (in order) and the abort message,
if any. -/
def runCheckedCalls : List CheckedCall → List String × Option String
  | [] => ([], none)
  | c :: rest =>
    match ERROR_QUIT c.pass c.msg with
    | none =>
      let r := runCheckedCalls rest
      (c.msg :: r.1, r.2)
    | some m => ([c.msg], some m)

/-- The abort discipline of the ERROR_QUIT pattern: if the k-th check is the
first failing one, the run consists of exactly the calls up to and including
the k-th (each once, in order), and aborts with that call's message; nothing
after the failure executes, and nothing is retried. -/
def stopsAtFirstFailure (l : List CheckedCall) : Prop :=
  ∀ k, (hk : k < l.length) → (l.get ⟨k, hk⟩).pass = false →
    (∀ j, (hj : j < l.length) → j < k → (l.get ⟨j, hj⟩).pass = true) →
    runCheckedCalls l = ((l.take (k + 1)).map CheckedCall.msg, some (l.get ⟨k, hk⟩).msg)

/-! ### Environment for initialization

One field per external-API outcome that an `ERROR_QUIT` (or an
intermediate `SUCCEEDED` guard in `d3d12::CompileShader`) inspects during
`HelloMeshNodes::Initialize`.
-/

/-- Outcomes of the external calls made inside `d3d12::CompileShader`
(HelloMeshNodes.cpp:271-306).  The nested `SUCCEEDED` guards there do not
abort individually; a failure anywhere leaves `resultBlob` null and the
single `ERROR_QUIT(resultBlob, ...)` at the end fires. -/
structure CompileEnv where
  dxCompilerLoaded : Bool        -- d3d12::sDxCompilerDLL != nullptr
  dxcCreateInstanceFound : Bool  -- GetProcAddress("DxcCreateInstance") != nullptr
  hrCreateUtils : HRESULT        -- pDxcCreateInstance(CLSID_DxcUtils, ...)
  hrCreateCompiler : HRESULT     -- pDxcCreateInstance(CLSID_DxcCompiler, ...)
  hrCreateBlob : HRESULT         -- pUtils->CreateBlob(...)
  hrCompileCall : HRESULT        -- pCompiler->Compile(...)
  hrCompileStatus : HRESULT      -- pOperationResult->GetStatus(&hr)
deriving DecidableEq

/-- `resultBlob != nullptr` at the end of `d3d12::CompileShader`: every
guarded step must have succeeded (each guard is `SUCCEEDED`, i.e. `0 <= hr`). -/
def compileShaderProducesBlob (e : CompileEnv) : Bool :=
  e.dxCompilerLoaded && e.dxcCreateInstanceFound &&
    SUCCEEDED e.hrCreateUtils && SUCCEEDED e.hrCreateCompiler &&
    SUCCEEDED e.hrCreateBlob && SUCCEEDED e.hrCompileCall &&
    SUCCEEDED e.hrCompileStatus

/-- Outcomes of the external calls checked during `HelloMeshNodes::Initialize`
(HelloMeshNodes.cpp:30-45 and the functions it calls). -/
structure InitEnv where
  -- EnableExperimentalFeatures (HelloMeshNodes.cpp:47-54)
  hrEnableExperimental : HRESULT
  -- InitializeDirectX (D3D12Helper.cpp:64-215)
  hrCreateFactory : HRESULT
  hrCreateDevice : HRESULT
  hrCreateCommandQueue : HRESULT
  hrCreateSwapChain : HRESULT
  hrMakeWindowAssociation : HRESULT
  hrQuerySwapChain3 : HRESULT
  hrCreateRtvHeap : HRESULT
  hrGetBuffer0 : HRESULT
  hrGetBuffer1 : HRESULT
  hrCreateDsvHeap : HRESULT
  hrCreateDepthBuffer : HRESULT
  hrCreateCommandAllocator : HRESULT
  hrCreateCommandList : HRESULT
  hrCloseCommandList : HRESULT
  hrCreateFence : HRESULT
  fenceEventCreated : Bool       -- CreateEvent(...) != nullptr
  hrSerializeRootSignature : HRESULT
  hrCreateRootSignature : HRESULT
  -- CheckWorkGraphMeshNodeSupport (HelloMeshNodes.cpp:56-66)
  hrCheckFeatureSupport : HRESULT
  workGraphsTier : Nat           -- Options.WorkGraphsTier
  -- the two d3d12::CompileShader calls (HelloMeshNodes.cpp:39-41)
  workGraphCompile : CompileEnv
  pixelShaderCompile : CompileEnv
  -- CreateGWGStateObject (HelloMeshNodes.cpp:68-184)
  hrCreateStateObject : HRESULT
  stateObjectNonNull : Bool
  -- PrepareWorkGraph (HelloMeshNodes.cpp:186-222)
  hrQueryStateObjectProperties : HRESULT
  hrQueryWorkGraphProperties : HRESULT
  maxSizeInBytes : Nat           -- memoryRequirements.MaxSizeInBytes
  backingMemoryAddress : Nat     -- backingMemoryResource->GetGPUVirtualAddress()
  hrAllocateBackingMemory : HRESULT
deriving DecidableEq

/-! ### Check lists of the individual initialization steps, in source order -/

/-- `HelloMeshNodes::EnableExperimentalFeatures` (HelloMeshNodes.cpp:47-54). -/
def enableExperimentalFeaturesChecks (env : InitEnv) : List CheckedCall :=
  [⟨"Failed to enable experimental features.", hrEqSOk env.hrEnableExperimental⟩]

/-- `HelloMeshNodes::InitializeDirectX` (D3D12Helper.cpp:64-215); the
`GetBuffer` loop over `FrameCount = 2` render targets is unrolled. -/
def initDirectXChecks (env : InitEnv) : List CheckedCall :=
  [⟨"Failed to create IDXGIFactory4.", hrEqSOk env.hrCreateFactory⟩,
   ⟨"Failed to create ID3D12Device.", hrEqSOk env.hrCreateDevice⟩,
   ⟨"Failed to create ID3D12CommandQueue.", hrEqSOk env.hrCreateCommandQueue⟩,
   ⟨"Failed to create IDXGISwapChain1.", hrEqSOk env.hrCreateSwapChain⟩,
   ⟨"Failed to make window association.", hrEqSOk env.hrMakeWindowAssociation⟩,
   ⟨"Failed to query IDXGISwapChain3.", hrEqSOk env.hrQuerySwapChain3⟩,
   ⟨"Failed to create RTV descriptor heap.", hrEqSOk env.hrCreateRtvHeap⟩,
   ⟨"Failed to access render target of swap chain.", hrEqSOk env.hrGetBuffer0⟩,
   ⟨"Failed to access render target of swap chain.", hrEqSOk env.hrGetBuffer1⟩,
   ⟨"Failed to create DSV descriptor heap.", hrEqSOk env.hrCreateDsvHeap⟩,
   ⟨"Failed to create depth buffer.", hrEqSOk env.hrCreateDepthBuffer⟩,
   ⟨"Failed to create ID3D12CommandAllocator.", hrEqSOk env.hrCreateCommandAllocator⟩,
   ⟨"Failed to create ID3D12GraphicsCommandList.", hrEqSOk env.hrCreateCommandList⟩,
   ⟨"Failed to close ID3D12GraphicsCommandList.", hrEqSOk env.hrCloseCommandList⟩,
   ⟨"Failed to create ID3D12Fence.", hrEqSOk env.hrCreateFence⟩,
   ⟨"Failed to create synchronization event.", env.fenceEventCreated⟩,
   ⟨"Failed to serialize RootSignature.", hrEqSOk env.hrSerializeRootSignature⟩,
   ⟨"Failed to create RootSignature.", hrEqSOk env.hrCreateRootSignature⟩]

/-- `HelloMeshNodes::CheckWorkGraphMeshNodeSupport` (HelloMeshNodes.cpp:56-66). -/
def checkWorkGraphMeshNodeSupportChecks (env : InitEnv) : List CheckedCall :=
  [⟨"Failed to check support for work graphs and mesh nodes.", hrEqSOk env.hrCheckFeatureSupport⟩,
   ⟨"Failed to find device with D3D12 Work Graphs 1.1 support. Please check if you have a compatible driver and graphics card installed.",
    decide (D3D12_WORK_GRAPHS_TIER_1_1 ≤ env.workGraphsTier)⟩]

/-- `d3d12::CompileShader` has a single `ERROR_QUIT(resultBlob, ...)`
(HelloMeshNodes.cpp:304). -/
def compileShaderChecks (e : CompileEnv) : List CheckedCall :=
  [⟨"Failed to compile GWG Library.", compileShaderProducesBlob e⟩]

/-- `HelloMeshNodes::CreateGWGStateObject` (HelloMeshNodes.cpp:180-181):
`ERROR_QUIT((hr == S_OK) && stateObject, ...)`. -/
def createGWGStateObjectChecks (env : InitEnv) : List CheckedCall :=
  [⟨"Failed to create Work Graph State Object.",
    hrEqSOk env.hrCreateStateObject && env.stateObjectNonNull⟩]

/-- `HelloMeshNodes::PrepareWorkGraph` checks (HelloMeshNodes.cpp:195-210):
two `SUCCEEDED` QueryInterface checks, then `d3d12::AllocateBuffer`
(D3D12Helper.cpp:286-296, a `SUCCEEDED` check) only when
`memoryRequirements.MaxSizeInBytes > 0`. -/
def prepareWorkGraphChecks (env : InitEnv) : List CheckedCall :=
  [⟨"Failed to query ID3D12StateObjectProperties1.", SUCCEEDED env.hrQueryStateObjectProperties⟩,
   ⟨"Failed to query ID3D12WorkGraphProperties1.", SUCCEEDED env.hrQueryWorkGraphProperties⟩]
  ++ (if 0 < env.maxSizeInBytes then
        [⟨"Failed to allocate buffer.", SUCCEEDED env.hrAllocateBackingMemory⟩]
      else [])

/-! ### The Initialize step sequence (HelloMeshNodes.cpp:30-45)

The C++ method is named `Initialize`; that identifier is unavailable here,
so the step-sequencing function is `initRun`.
-/

/-- The seven top-level steps of `HelloMeshNodes::Initialize`. -/
inductive InitStep
  | enableExperimentalFeatures
  | initDirectX                   -- HelloMeshNodes::InitializeDirectX
  | checkWorkGraphMeshNodeSupport
  | compileWorkGraphLibrary       -- d3d12::CompileShader(workGraphSource, nullptr, "lib_6_9")
  | compilePixelShaderLibrary     -- d3d12::CompileShader(workGraphSource, "MeshNodePixelShader", "ps_6_9")
  | createGWGStateObject
  | prepareWorkGraph
deriving DecidableEq

/-- The checked calls a given step performs. -/
def initStepChecks (env : InitEnv) : InitStep → List CheckedCall
  | .enableExperimentalFeatures => enableExperimentalFeaturesChecks env
  | .initDirectX => initDirectXChecks env
  | .checkWorkGraphMeshNodeSupport => checkWorkGraphMeshNodeSupportChecks env
  | .compileWorkGraphLibrary => compileShaderChecks env.workGraphCompile
  | .compilePixelShaderLibrary => compileShaderChecks env.pixelShaderCompile
  | .createGWGStateObject => createGWGStateObjectChecks env
  | .prepareWorkGraph => prepareWorkGraphChecks env

/-- The order in which `HelloMeshNodes::Initialize` performs its steps
(HelloMeshNodes.cpp:32-44). -/
def initStepOrder : List InitStep :=
  [.enableExperimentalFeatures, .initDirectX, .checkWorkGraphMeshNodeSupport,
   .compileWorkGraphLibrary, .compilePixelShaderLibrary,
   .createGWGStateObject, .prepareWorkGraph]

/-- Run a list of initialization steps in order; a failing `ERROR_QUIT`
inside a step aborts the whole run.  Returns the steps that began
executing, in order, and the abort message, if any. -/
def runInitSteps (env : InitEnv) : List InitStep → List InitStep × Option String
  | [] => ([], none)
  | s :: rest =>
    match (runCheckedCalls (initStepChecks env s)).2 with
    | none =>
      let r := runInitSteps env rest
      (s :: r.1, r.2)
    | some m => ([s], some m)

/-- `HelloMeshNodes::Initialize(hwnd)` (HelloMeshNodes.cpp:30-45). -/
def initRun (env : InitEnv) : List InitStep × Option String :=
  runInitSteps env initStepOrder

/-- All checked calls of the whole initialization, flattened in execution
order. -/
def initChecks (env : InitEnv) : List CheckedCall :=
  (initStepOrder.map (initStepChecks env)).flatten

/-! ### Work graph program description (HelloMeshNodes.cpp:186-222) -/

/-- `D3D12_GPU_VIRTUAL_ADDRESS_RANGE`; zero-initialized to `⟨0, 0⟩`. -/
structure GpuVaRange where
  startAddress : Nat
  sizeInBytes : Nat
deriving DecidableEq

/-- `D3D12_SET_WORK_GRAPH_FLAGS`.  The D3D12 enumerators are
`D3D12_SET_WORK_GRAPH_FLAG_NONE` and `D3D12_SET_WORK_GRAPH_FLAG_INITIALIZE`;
the latter constructor is renamed `flagInit` (identifier unavailable). -/
inductive WorkGraphFlags
  | flagNone
  | flagInit
deriving DecidableEq

/-- The `WorkGraph` part of `D3D12_SET_PROGRAM_DESC` as the sample uses it.
The opaque `ProgramIdentifier` handle is not modelled. -/
structure SetWorkGraphDesc where
  flags : WorkGraphFlags
  backingMemory : GpuVaRange
deriving DecidableEq

/-- `D3D12_SET_PROGRAM_DESC` (the sample always sets
`Type = D3D12_PROGRAM_TYPE_WORK_GRAPH`). -/
structure SetProgramDesc where
  workGraph : SetWorkGraphDesc
deriving DecidableEq

/-- `SetMaximumInputRecords(workGraphIndex, 1, 1)` (HelloMeshNodes.cpp:203):
the maximum number of input records declared to the runtime. -/
def declaredMaxInputRecords : Nat := 1

/-- Second argument of the same `SetMaximumInputRecords` call: the maximum
number of node inputs. -/
def declaredMaxNodeInputs : Nat := 1

/-- What `HelloMeshNodes::PrepareWorkGraph` constructs, beyond its checked
calls (those are `prepareWorkGraphChecks`): the returned description and
the size of the backing-memory buffer passed to `d3d12::AllocateBuffer`,
if that call was made. -/
structure PrepareResult where
  desc : SetProgramDesc
  allocatedBackingMemorySize : Option Nat
deriving DecidableEq

/-- Data flow of `HelloMeshNodes::PrepareWorkGraph` (HelloMeshNodes.cpp:205-221):
`setProgramDesc = {}` zero-initializes `BackingMemory`; the buffer is
allocated only when `memoryRequirements.MaxSizeInBytes > 0`, and then
`BackingMemory = { GetGPUVirtualAddress(), MaxSizeInBytes }`; `Flags` is set
to the initialize flag. -/
def prepareWorkGraphDesc (maxSizeInBytes backingMemoryAddress : Nat) : PrepareResult :=
  let allocated : Option Nat :=
    if 0 < maxSizeInBytes then some maxSizeInBytes else none
  let backingMemory : GpuVaRange :=
    match allocated with
    | some size => ⟨backingMemoryAddress, size⟩
    | none => ⟨0, 0⟩
  { desc := { workGraph := { flags := .flagInit, backingMemory := backingMemory } },
    allocatedBackingMemorySize := allocated }

/-! ### RecordCommandList (HelloMeshNodes.cpp:224-268) -/

/-- `D3D12_RESOURCE_STATES` values the sample transitions between. -/
inductive ResourceState
  | present
  | renderTarget
deriving DecidableEq

/-- `D3D12_DISPATCH_GRAPH_DESC` with
`Mode = D3D12_DISPATCH_MODE_NODE_CPU_INPUT`: the `NodeCPUInput` fields set
at HelloMeshNodes.cpp:250-258. -/
structure DispatchGraphDesc where
  entrypointIndex : Nat
  numRecords : Nat
  recordStrideInBytes : Nat
  recordsIsNull : Bool   -- pRecords == nullptr
deriving DecidableEq

/-- The dispatch description built by `RecordCommandList`: one record, zero
stride, null record pointer (HelloMeshNodes.cpp:250-258). -/
def dispatchGraphDesc : DispatchGraphDesc :=
  { entrypointIndex := 0, numRecords := 1, recordStrideInBytes := 0, recordsIsNull := true }

/-- Commands recorded into the command list by `RecordCommandList`. -/
inductive Cmd
  | transitionBarrier (before after : ResourceState)
  | setViewports (count width height : Nat)
  | setScissorRects (count width height : Nat)
  | clearRenderTargetView
  | clearDepthStencilView
  | setRenderTargets (count : Nat)
  | setGraphicsRootSignature
  | setProgram (desc : SetProgramDesc)
  | dispatchGraph (desc : DispatchGraphDesc)
deriving DecidableEq

/-- Whether a recorded command is a `DispatchGraph` call. -/
def Cmd.isDispatchGraph : Cmd → Bool
  | .dispatchGraph _ => true
  | _ => false

/-- `HelloMeshNodes::RecordCommandList` (HelloMeshNodes.cpp:224-268): the
commands recorded, in order, and the member `setProgramDesc_` after the
call (its `Flags` field is reset to the none flag at line 267, so that only
the first frame carries the initialize flag). -/
def recordCommandList (setProgramDesc : SetProgramDesc) : List Cmd × SetProgramDesc :=
  ([Cmd.transitionBarrier .present .renderTarget,
    Cmd.setViewports 1 WindowSize WindowSize,
    Cmd.setScissorRects 1 WindowSize WindowSize,
    Cmd.clearRenderTargetView,
    Cmd.clearDepthStencilView,
    Cmd.setRenderTargets 1,
    Cmd.setGraphicsRootSignature,
    Cmd.setProgram setProgramDesc,
    Cmd.dispatchGraph dispatchGraphDesc,
    Cmd.transitionBarrier .renderTarget .present],
   { setProgramDesc with
      workGraph := { setProgramDesc.workGraph with flags := .flagNone } })

/-- The member `setProgramDesc_` after `n` frames have been recorded,
starting from the description `PrepareWorkGraph` returned
(HelloMeshNodes.cpp:44 and 267). -/
def setProgramDescAfterFrames (maxSizeInBytes backingMemoryAddress : Nat) : Nat → SetProgramDesc
  | 0 => (prepareWorkGraphDesc maxSizeInBytes backingMemoryAddress).desc
  | n + 1 => (recordCommandList (setProgramDescAfterFrames maxSizeInBytes backingMemoryAddress n)).2

/-! ### Render and WaitForPreviousFrame (D3D12Helper.cpp:217-265) -/

/-- `fenceValue_` is a `UINT64`; its increment wraps at `2 ^ 64`. -/
def UINT64_MOD : Nat := 2 ^ 64

/-- Outcomes of the external calls made during one `Render` call. -/
structure RenderEnv where
  hrResetCommandAllocator : HRESULT
  hrResetCommandList : HRESULT
  hrCloseCommandList : HRESULT
  hrPresent : HRESULT
  hrSignal : HRESULT               -- commandQueue_->Signal(fence_, fence)
  completedFenceValue : Nat        -- fence_->GetCompletedValue()
  hrSetEventOnCompletion : HRESULT
  backBufferIndexAfterPresent : Nat -- swapChain_->GetCurrentBackBufferIndex()
deriving DecidableEq

/-- Events of one frame: recorded commands plus the submission,
presentation and fence operations around them. -/
inductive FrameEv
  | cmd (c : Cmd)
  | executeCommandLists (count : Nat)
  | present
  | fenceSignal (value : Nat)
  | fenceEventWait (value : Nat)   -- SetEventOnCompletion + WaitForSingleObject(INFINITE)
deriving DecidableEq

/-- Whether a frame event is the `DispatchGraph` command. -/
def FrameEv.isDispatchGraph : FrameEv → Bool
  | .cmd c => c.isDispatchGraph
  | _ => false

/-- Result of `HelloMeshNodes::WaitForPreviousFrame`. -/
structure WaitOutcome where
  events : List FrameEv
  newFenceValue : Nat       -- fenceValue_ after the call
  signaled : Nat            -- the value passed to commandQueue_->Signal
  completedAtReturn : Nat   -- fence_->GetCompletedValue() as of the return
  newFrameIndex : Nat       -- frameIndex_ after the call
deriving DecidableEq

/-- `HelloMeshNodes::WaitForPreviousFrame` (D3D12Helper.cpp:242-265):
signal the fence with the current `fenceValue_`, increment `fenceValue_`,
and if the fence has not yet completed that value, block on the fence
event until it has.  `SetEventOnCompletion(fence, event)` followed by
`WaitForSingleObject(event, INFINITE)` returns once the fence's completed
value has reached `fence`; that D3D12 guarantee is encoded in
`completedAtReturn`. -/
def waitForPreviousFrame (env : RenderEnv) (fenceValue : Nat) : Except String WaitOutcome :=
  let fence := fenceValue
  -- ERROR_QUIT(hresult == S_OK, "Failed to signal fence.")
  if hrEqSOk env.hrSignal then
    let newFenceValue := (fenceValue + 1) % UINT64_MOD
    if env.completedFenceValue < fence then
      -- ERROR_QUIT(hresult == S_OK, "Failed to set up fence event.")
      if hrEqSOk env.hrSetEventOnCompletion then
        .ok { events := [.fenceSignal fence, .fenceEventWait fence],
              newFenceValue := newFenceValue,
              signaled := fence,
              completedAtReturn := max env.completedFenceValue fence,
              newFrameIndex := env.backBufferIndexAfterPresent }
      else .error "Failed to set up fence event."
    else
      .ok { events := [.fenceSignal fence],
            newFenceValue := newFenceValue,
            signaled := fence,
            completedAtReturn := env.completedFenceValue,
            newFrameIndex := env.backBufferIndexAfterPresent }
  else .error "Failed to signal fence."

/-- Per-frame mutable state of the sample that `Render` touches. -/
structure FrameState where
  setProgramDesc : SetProgramDesc
  fenceValue : Nat
  frameIndex : Nat
deriving DecidableEq

/-- `HelloMeshNodes::Render` (D3D12Helper.cpp:217-240): reset allocator and
list, record the command list, close it, execute it, present, then
`WaitForPreviousFrame`.  Returns the frame's events in order and the new
state, or the abort message of the first failing `ERROR_QUIT`. -/
def render (env : RenderEnv) (s : FrameState) : Except String (List FrameEv × FrameState) :=
  -- ERROR_QUIT(hresult == S_OK, "Failed to reset ID3D12CommandAllocator.")
  if hrEqSOk env.hrResetCommandAllocator then
    -- ERROR_QUIT(hresult == S_OK, "Failed to reset ID3D12GraphicsCommandList.")
    if hrEqSOk env.hrResetCommandList then
      let rc := recordCommandList s.setProgramDesc
      -- ERROR_QUIT(hresult == S_OK, "Failed to close ID3D12CommandAllocator.")
      if hrEqSOk env.hrCloseCommandList then
        -- ExecuteCommandLists, then Present with
        -- ERROR_QUIT(hresult == S_OK, "Failed to present frame.")
        if hrEqSOk env.hrPresent then
          match waitForPreviousFrame env s.fenceValue with
          | .error m => .error m
          | .ok w =>
            .ok (rc.1.map FrameEv.cmd
                   ++ [FrameEv.executeCommandLists 1, FrameEv.present] ++ w.events,
                 { setProgramDesc := rc.2, fenceValue := w.newFenceValue,
                   frameIndex := w.newFrameIndex })
        else .error "Failed to present frame."
      else .error "Failed to close ID3D12CommandAllocator."
    else .error "Failed to reset ID3D12GraphicsCommandList."
  else .error "Failed to reset ID3D12CommandAllocator."

/-- The checked calls of one `Render` call, flattened in execution order
(used by the error-handling claims; `fenceValue` is `fenceValue_` on entry). -/
def renderChecks (env : RenderEnv) (fenceValue : Nat) : List CheckedCall :=
  [⟨"Failed to reset ID3D12CommandAllocator.", hrEqSOk env.hrResetCommandAllocator⟩,
   ⟨"Failed to reset ID3D12GraphicsCommandList.", hrEqSOk env.hrResetCommandList⟩,
   ⟨"Failed to close ID3D12CommandAllocator.", hrEqSOk env.hrCloseCommandList⟩,
   ⟨"Failed to present frame.", hrEqSOk env.hrPresent⟩,
   ⟨"Failed to signal fence.", hrEqSOk env.hrSignal⟩]
  ++ (if env.completedFenceValue < fenceValue then
        [⟨"Failed to set up fence event.", hrEqSOk env.hrSetEventOnCompletion⟩]
      else [])

/-! ### Fixed-size render surfaces (D3D12Helper.cpp:88-95, 164-168;
HelloMeshNodes.cpp:229-233) -/

/-- The `DXGI_SWAP_CHAIN_DESC1` fields set in `InitializeDirectX`
(D3D12Helper.cpp:88-95). -/
structure SwapChainDesc1 where
  bufferCount : Nat
  width : Nat
  height : Nat
  sampleCount : Nat
deriving DecidableEq

/-- The swap chain description of the sample. -/
def swapChainDesc : SwapChainDesc1 :=
  { bufferCount := FrameCount, width := WindowSize, height := WindowSize, sampleCount := 1 }

/-- The extents of a `CD3DX12_RESOURCE_DESC::Tex2D` resource. -/
structure Tex2DExtents where
  width : Nat
  height : Nat
deriving DecidableEq

/-- The depth buffer resource extents (D3D12Helper.cpp:164-168). -/
def depthResourceExtents : Tex2DExtents :=
  { width := WindowSize, height := WindowSize }

/-- `CD3DX12_VIEWPORT(0.f, 0.f, WindowSize, WindowSize)`
(HelloMeshNodes.cpp:230); the extents are integral values converted to
float, modelled as the integers. -/
structure ViewportDesc where
  topLeftX : Nat
  topLeftY : Nat
  width : Nat
  height : Nat
deriving DecidableEq

/-- The viewport set each frame. -/
def viewport : ViewportDesc :=
  { topLeftX := 0, topLeftY := 0, width := WindowSize, height := WindowSize }

/-- `CD3DX12_RECT(0, 0, WindowSize, WindowSize)` (HelloMeshNodes.cpp:231). -/
structure RectDesc where
  left : Nat
  top : Nat
  right : Nat
  bottom : Nat
deriving DecidableEq

/-- The scissor rectangle set each frame. -/
def scissorRect : RectDesc :=
  { left := 0, top := 0, right := WindowSize, bottom := WindowSize }

/-! ### The HLSL work graph (ShaderSource.h)

The graph's record routing: `EntryNode` seeds three `LineRecord`s into
`SnowflakeNode` and one `TriangleDrawRecord` into `TriangleMeshNode`;
`SnowflakeNode` carries `[NodeMaxRecursionDepth(maxSnowflakeRecursions)]`
and either recurses (4 records to itself, 1 triangle) or terminates with
one record to `LineMeshNode`, depending on `GetRemainingRecursionLevels()`.
Per the D3D12 work graphs recursion rules, a record entering
`SnowflakeNode` from `EntryNode` sees `GetRemainingRecursionLevels() =
maxSnowflakeRecursions`, and each self-output decrements it by one.
-/

/-- `static const uint maxSnowflakeRecursions = 3;` (ShaderSource.h:50). -/
def maxSnowflakeRecursions : Nat := 3

/-- `[NodeMaxRecursionDepth(maxSnowflakeRecursions)]` on `SnowflakeNode`
(ShaderSource.h:93). -/
def snowflakeNodeMaxRecursionDepth : Nat := maxSnowflakeRecursions

/-- Output record counts of one node invocation, by target node. -/
structure NodeOutputCounts where
  snowflakeRecords : Nat   -- records sent to SnowflakeNode
  triangleRecords : Nat    -- records sent to TriangleMeshNode
  lineRecords : Nat        -- records sent to LineMeshNode
deriving DecidableEq

/-- HLSL bool-to-uint conversion (`hasOutput * 4`, `!hasOutput`). -/
def boolToUint (b : Bool) : Nat := if b then 1 else 0

/-- `EntryNode` (ShaderSource.h:53-89): three `LineRecord`s to
`SnowflakeNode` and one `TriangleDrawRecord` to `TriangleMeshNode`. -/
def entryNodeOutputs : NodeOutputCounts :=
  { snowflakeRecords := 3, triangleRecords := 1, lineRecords := 0 }

/-- `SnowflakeNode` (ShaderSource.h:91-140): with
`hasOutput = (GetRemainingRecursionLevels() != 0)`, it requests
`hasOutput * 4` self records, `hasOutput` triangle records and
`!hasOutput` line records. -/
def snowflakeNodeOutputs (remainingRecursionLevels : Nat) : NodeOutputCounts :=
  let hasOutput : Bool := remainingRecursionLevels != 0
  { snowflakeRecords := boolToUint hasOutput * 4,
    triangleRecords := boolToUint hasOutput,
    lineRecords := boolToUint (!hasOutput) }

/-- Number of further self-recursion levels below one `SnowflakeNode`
invocation entered with the given remaining recursion levels (each self
record enters with one level fewer). -/
def snowflakeSubtreeLevels : Nat → Nat
  | 0 => 0
  | r + 1 =>
    if (snowflakeNodeOutputs (r + 1)).snowflakeRecords = 0 then 0
    else 1 + snowflakeSubtreeLevels r

/-- Total `SnowflakeNode` invocations in the subtree rooted at one
invocation entered with the given remaining recursion levels. -/
def snowflakeSubtreeInvocations : Nat → Nat
  | 0 => 1
  | r + 1 => 1 + (snowflakeNodeOutputs (r + 1)).snowflakeRecords * snowflakeSubtreeInvocations r

/-- Total records sent to `LineMeshNode` from the subtree rooted at one
invocation entered with the given remaining recursion levels. -/
def snowflakeSubtreeLineRecords : Nat → Nat
  | 0 => (snowflakeNodeOutputs 0).lineRecords
  | r + 1 =>
    (snowflakeNodeOutputs (r + 1)).lineRecords
      + (snowflakeNodeOutputs (r + 1)).snowflakeRecords * snowflakeSubtreeLineRecords r

/-! ### Concrete environments used as evaluation inputs -/

/-- A compiler environment in which every external call succeeds. -/
def okCompileEnv : CompileEnv :=
  { dxCompilerLoaded := true, dxcCreateInstanceFound := true,
    hrCreateUtils := 0, hrCreateCompiler := 0, hrCreateBlob := 0,
    hrCompileCall := 0, hrCompileStatus := 0 }

/-- An initialization environment in which every external call succeeds:
every HRESULT is `S_OK`, the device reports work graphs tier 1.1, and the
work graph reports a 65536-byte backing memory requirement at GPU address
4096. -/
def okInitEnv : InitEnv :=
  { hrEnableExperimental := 0,
    hrCreateFactory := 0, hrCreateDevice := 0, hrCreateCommandQueue := 0,
    hrCreateSwapChain := 0, hrMakeWindowAssociation := 0, hrQuerySwapChain3 := 0,
    hrCreateRtvHeap := 0, hrGetBuffer0 := 0, hrGetBuffer1 := 0,
    hrCreateDsvHeap := 0, hrCreateDepthBuffer := 0,
    hrCreateCommandAllocator := 0, hrCreateCommandList := 0, hrCloseCommandList := 0,
    hrCreateFence := 0, fenceEventCreated := true,
    hrSerializeRootSignature := 0, hrCreateRootSignature := 0,
    hrCheckFeatureSupport := 0, workGraphsTier := 11,
    workGraphCompile := okCompileEnv, pixelShaderCompile := okCompileEnv,
    hrCreateStateObject := 0, stateObjectNonNull := true,
    hrQueryStateObjectProperties := 0, hrQueryWorkGraphProperties := 0,
    maxSizeInBytes := 65536, backingMemoryAddress := 4096,
    hrAllocateBackingMemory := 0 }

/-- Like `okInitEnv`, but the first `QueryInterface` in `PrepareWorkGraph`
returns the success code `S_FALSE = 1`: a nonzero result code that the
`SUCCEEDED` check lets through. -/
def sFalseQueryEnv : InitEnv :=
  { okInitEnv with hrQueryStateObjectProperties := 1 }

/-- Like `okInitEnv`, but `D3D12EnableExperimentalFeatures` fails with a
negative HRESULT, so the very first checked call aborts. -/
def failEnableEnv : InitEnv :=
  { okInitEnv with hrEnableExperimental := -1 }

/-- A render environment in which every external call succeeds and the
fence has completed value 0 (so the frame's wait actually blocks). -/
def okRenderEnv : RenderEnv :=
  { hrResetCommandAllocator := 0, hrResetCommandList := 0,
    hrCloseCommandList := 0, hrPresent := 0, hrSignal := 0,
    completedFenceValue := 0, hrSetEventOnCompletion := 0,
    backBufferIndexAfterPresent := 1 }

/-- The `setProgramDesc_` produced by `PrepareWorkGraph` in `okInitEnv`. -/
def descInit : SetProgramDesc :=
  (prepareWorkGraphDesc okInitEnv.maxSizeInBytes okInitEnv.backingMemoryAddress).desc

/-- The sample's state when the first `Render` begins: `fenceValue_` was
set to 1 at the end of `InitializeDirectX` (D3D12Helper.cpp:197). -/
def frameState0 : FrameState :=
  { setProgramDesc := descInit, fenceValue := 1, frameIndex := 0 }

/-- The frame events of the first `Render` call in `okRenderEnv`. -/
def frameTraceW : List FrameEv :=
  [FrameEv.cmd (Cmd.transitionBarrier .present .renderTarget),
   FrameEv.cmd (Cmd.setViewports 1 WindowSize WindowSize),
   FrameEv.cmd (Cmd.setScissorRects 1 WindowSize WindowSize),
   FrameEv.cmd Cmd.clearRenderTargetView,
   FrameEv.cmd Cmd.clearDepthStencilView,
   FrameEv.cmd (Cmd.setRenderTargets 1),
   FrameEv.cmd Cmd.setGraphicsRootSignature,
   FrameEv.cmd (Cmd.setProgram descInit),
   FrameEv.cmd (Cmd.dispatchGraph dispatchGraphDesc),
   FrameEv.cmd (Cmd.transitionBarrier .renderTarget .present),
   FrameEv.executeCommandLists 1, FrameEv.present,
   FrameEv.fenceSignal 1, FrameEv.fenceEventWait 1]

/-- The sample's state after the first `Render` call in `okRenderEnv`. -/
def frameStateW : FrameState :=
  { setProgramDesc :=
      { workGraph := { flags := .flagNone, backingMemory := ⟨4096, 65536⟩ } },
    fenceValue := 2, frameIndex := 1 }

/-- The outcome of `waitForPreviousFrame okRenderEnv 1`. -/
def waitOutcomeW : WaitOutcome :=
  { events := [.fenceSignal 1, .fenceEventWait 1],
    newFenceValue := 2, signaled := 1, completedAtReturn := 1, newFrameIndex := 1 }

/-! ## General lemmas about the ERROR_QUIT run model -/

theorem runCheckedCalls_allPass :
    ∀ l : List CheckedCall, (∀ c ∈ l, c.pass = true) →
      runCheckedCalls l = (l.map CheckedCall.msg, none) := by
  intro l
  induction l with
  | nil => intro _; rfl
  | cons c rest ih =>
    intro h
    have hc : c.pass = true := h c (List.mem_cons_self c rest)
    have hrest := ih (fun d hd => h d (List.mem_cons_of_mem c hd))
    simp [runCheckedCalls, ERROR_QUIT, hc, hrest]

theorem runCheckedCalls_firstFailure :
    ∀ l : List CheckedCall, stopsAtFirstFailure l := by
  intro l
  induction l with
  | nil =>
    intro k hk
    exact absurd hk (by simp)
  | cons c rest ih =>
    intro k hk hfail hbefore
    cases k with
    | zero =>
      simp only [List.get] at hfail
      simp [runCheckedCalls, ERROR_QUIT, hfail]
    | succ k' =>
      have hc : c.pass = true := by
        have := hbefore 0 (by simp) (Nat.succ_pos k')
        simpa using this
      have hk' : k' < rest.length := by
        simpa [List.length_cons, Nat.succ_lt_succ_iff] using hk
      have hfail' : (rest.get ⟨k', hk'⟩).pass = false := by
        simpa using hfail
      have hbefore' : ∀ j, (hj : j < rest.length) → j < k' →
          (rest.get ⟨j, hj⟩).pass = true := by
        intro j hj hjk
        have := hbefore (j + 1)
          (by simpa [List.length_cons, Nat.succ_lt_succ_iff] using hj)
          (Nat.succ_lt_succ hjk)
        simpa using this
      have := ih k' hk' hfail' hbefore'
      simp [runCheckedCalls, ERROR_QUIT, hc, this]

theorem runInitSteps_complete :
    ∀ (env : InitEnv) (l : List InitStep),
      (runInitSteps env l).2 = none → (runInitSteps env l).1 = l := by
  intro env l
  induction l with
  | nil => intro _; rfl
  | cons s rest ih =>
    intro h
    cases hc : (runCheckedCalls (initStepChecks env s)).2 with
    | none =>
      simp only [runInitSteps, hc] at h ⊢
      exact congrArg (s :: ·) (ih h)
    | some m =>
      simp only [runInitSteps, hc] at h
      exact absurd h (by simp)

/-- Characterization of `WaitForPreviousFrame` on a successful run: the
signaled value, the incremented `fenceValue_`, the completed value at
return, the refreshed `frameIndex_`, and the exact fence events (a wait on
the fence event happens exactly when the fence had not yet completed the
signaled value). -/
theorem waitForPreviousFrame_spec :
    ∀ (env : RenderEnv) (fenceValue : Nat) (w : WaitOutcome),
      waitForPreviousFrame env fenceValue = .ok w →
      w.signaled = fenceValue
      ∧ w.newFenceValue = (fenceValue + 1) % UINT64_MOD
      ∧ fenceValue ≤ w.completedAtReturn
      ∧ w.newFrameIndex = env.backBufferIndexAfterPresent
      ∧ (if env.completedFenceValue < fenceValue
          then w.events = [.fenceSignal fenceValue, .fenceEventWait fenceValue]
          else w.events = [.fenceSignal fenceValue]) := by
  intro env fv w h
  by_cases h1 : hrEqSOk env.hrSignal
  · by_cases h2 : env.completedFenceValue < fv
    · by_cases h3 : hrEqSOk env.hrSetEventOnCompletion
      · simp only [waitForPreviousFrame, h1, h2, h3, if_true, if_pos] at h
        injection h with h
        subst h
        refine ⟨rfl, rfl, Nat.le_max_right _ _, rfl, ?_⟩
        simp [h2]
      · simp [waitForPreviousFrame, h1, h2, h3] at h
    · simp only [waitForPreviousFrame, h1, h2, if_true, if_neg, if_pos] at h
      injection h with h
      subst h
      refine ⟨rfl, rfl, Nat.le_of_not_lt h2, rfl, ?_⟩
      simp [h2]
  · simp [waitForPreviousFrame, h1] at h

/-! ## Claim theorems -/

/-- Claim C1: every successful `Render` call records exactly one work
graph dispatch — one `DispatchGraph` command, whose description submits
exactly one input record — and does not return before waiting for the
frame: the frame's event trace ends with the (nonempty) event sequence of
`WaitForPreviousFrame`, which comes after the `ExecuteCommandLists`
submission and the `Present` call. -/
theorem render_one_dispatch_then_wait :
    ∀ (env : RenderEnv) (s : FrameState) (tr : List FrameEv) (s' : FrameState),
      render env s = .ok (tr, s') →
      tr.filter FrameEv.isDispatchGraph = [FrameEv.cmd (Cmd.dispatchGraph dispatchGraphDesc)]
      ∧ (recordCommandList s.setProgramDesc).1.filter Cmd.isDispatchGraph
          = [Cmd.dispatchGraph dispatchGraphDesc]
      ∧ dispatchGraphDesc.numRecords = 1
      ∧ ∃ w : WaitOutcome,
          waitForPreviousFrame env s.fenceValue = .ok w
          ∧ tr = (recordCommandList s.setProgramDesc).1.map FrameEv.cmd
              ++ [FrameEv.executeCommandLists 1, FrameEv.present] ++ w.events
          ∧ w.events ≠ [] := by
  intro env s tr s' h
  by_cases h1 : hrEqSOk env.hrResetCommandAllocator
  case neg => simp [render, h1] at h
  by_cases h2 : hrEqSOk env.hrResetCommandList
  case neg => simp [render, h1, h2] at h
  by_cases h3 : hrEqSOk env.hrCloseCommandList
  case neg => simp [render, h1, h2, h3] at h
  by_cases h4 : hrEqSOk env.hrPresent
  case neg => simp [render, h1, h2, h3, h4] at h
  simp only [render, h1, h2, h3, h4, if_true] at h
  cases hw : waitForPreviousFrame env s.fenceValue with
  | error m => rw [hw] at h; exact absurd h (by simp)
  | ok w =>
    rw [hw] at h
    injection h with h
    injection h with htr hs
    subst htr
    have hspec := waitForPreviousFrame_spec env s.fenceValue w hw
    have hev : w.events = [.fenceSignal s.fenceValue, .fenceEventWait s.fenceValue]
        ∨ w.events = [.fenceSignal s.fenceValue] := by
      rcases hspec with ⟨-, -, -, -, hif⟩
      by_cases hq : env.completedFenceValue < s.fenceValue
      · rw [if_pos hq] at hif; exact Or.inl hif
      · rw [if_neg hq] at hif; exact Or.inr hif
    refine ⟨?_, rfl, rfl, w, rfl, rfl, ?_⟩
    · rcases hev with hev | hev <;>
        simp [recordCommandList, hev, FrameEv.isDispatchGraph, Cmd.isDispatchGraph]
    · rcases hev with hev | hev <;> simp [hev]

/-- Witness for C1 at a concrete environment and state: the first frame's
trace in `okRenderEnv` contains exactly one dispatch. -/
theorem render_one_dispatch_then_wait_witness :
    frameTraceW.filter FrameEv.isDispatchGraph
      = [FrameEv.cmd (Cmd.dispatchGraph dispatchGraphDesc)] :=
  (render_one_dispatch_then_wait okRenderEnv frameState0 frameTraceW frameStateW rfl).1

/-- Claim C2 counterexample: in `sFalseQueryEnv` the HRESULT checked after
the first `QueryInterface` of `PrepareWorkGraph` is `S_FALSE = 1`, which is
not `S_OK`, yet the whole initialization runs to completion without
aborting — the `SUCCEEDED` check does not terminate on this nonzero result
code. -/
theorem nonzero_hresult_continues_cex :
    sFalseQueryEnv.hrQueryStateObjectProperties ≠ S_OK
    ∧ (runCheckedCalls (initChecks sFalseQueryEnv)).2 = none
    ∧ (initRun sFalseQueryEnv).2 = none :=
  ⟨by decide, rfl, rfl⟩

/-- Claim C2 (amended): an HRESULT checked by exact comparison with `S_OK`
aborts iff it is nonzero, while the HRESULTs checked through `SUCCEEDED`
(the two `QueryInterface` calls of `PrepareWorkGraph` and the
`CreateCommittedResource` of `AllocateBuffer`) abort iff they are
negative, so nonzero success codes pass there. -/
theorem checked_hresult_abort_conditions :
    ∀ (hr : HRESULT) (msg : String),
      (ERROR_QUIT (hrEqSOk hr) msg = some msg ↔ hr ≠ S_OK)
      ∧ (ERROR_QUIT (SUCCEEDED hr) msg = some msg ↔ hr < 0)
      ∧ (∀ env : InitEnv,
          ((runCheckedCalls (enableExperimentalFeaturesChecks env)).2 = none
            ↔ env.hrEnableExperimental = S_OK))
      ∧ (∀ env : InitEnv,
          ((runCheckedCalls (prepareWorkGraphChecks env)).2 = none
            ↔ 0 ≤ env.hrQueryStateObjectProperties
              ∧ 0 ≤ env.hrQueryWorkGraphProperties
              ∧ (0 < env.maxSizeInBytes → 0 ≤ env.hrAllocateBackingMemory))) := by
  intro hr msg
  refine ⟨?_, ?_, ?_, ?_⟩
  · by_cases h : hr = S_OK <;> simp [ERROR_QUIT, hrEqSOk, h]
  · by_cases h : (0 : Int) ≤ hr
    · simp [ERROR_QUIT, SUCCEEDED, h]
    · simp only [ERROR_QUIT, SUCCEEDED]
      rw [if_neg (by simpa using h)]
      simp
      exact not_le.mp h
  · intro env
    by_cases h : env.hrEnableExperimental = S_OK <;>
      simp [enableExperimentalFeaturesChecks, runCheckedCalls, ERROR_QUIT, hrEqSOk, h]
  · intro env
    by_cases hq1 : (0 : Int) ≤ env.hrQueryStateObjectProperties <;>
    by_cases hq2 : (0 : Int) ≤ env.hrQueryWorkGraphProperties <;>
    by_cases hm : 0 < env.maxSizeInBytes <;>
    by_cases ha : (0 : Int) ≤ env.hrAllocateBackingMemory <;>
      simp [prepareWorkGraphChecks, runCheckedCalls, ERROR_QUIT, SUCCEEDED,
        hq1, hq2, hm, ha]

/-- Witness for the amended C2 at a concrete HRESULT: a negative result
code checked through an exact-equality check aborts. -/
theorem checked_hresult_abort_conditions_witness :
    ERROR_QUIT (hrEqSOk (-1)) "m" = some "m" :=
  ((checked_hresult_abort_conditions (-1) "m").1).mpr (by decide)

/-- Claim C3: in both initialization and rendering, the checked calls obey
the ERROR_QUIT discipline — at the first failing check the run has executed
exactly the calls up to and including the failing one, in order, and aborts
with that check's message; nothing afterwards executes, nothing is retried,
and nothing recovers. -/
theorem error_handling_stops_at_first_failure :
    ∀ (ienv : InitEnv) (renv : RenderEnv) (fenceValue : Nat),
      stopsAtFirstFailure (initChecks ienv)
      ∧ stopsAtFirstFailure (renderChecks renv fenceValue) :=
  fun _ _ _ =>
    ⟨runCheckedCalls_firstFailure _, runCheckedCalls_firstFailure _⟩

/-- Witness for C3 at a concrete environment: when enabling experimental
features fails, the run executes only that first call and aborts with its
message. -/
theorem error_handling_stops_at_first_failure_witness :
    runCheckedCalls (initChecks failEnableEnv)
      = (["Failed to enable experimental features."],
         some "Failed to enable experimental features.") :=
  (error_handling_stops_at_first_failure failEnableEnv okRenderEnv 1).1 0
    (by decide) (by decide) (fun j _ hj0 => absurd hj0 (Nat.not_lt_zero j))

/-- Claim C4: the work graph declares recursion depth limit
`maxSnowflakeRecursions = 3` for `SnowflakeNode`; each invocation outputs
four further `SnowflakeNode` records (and one triangle record) exactly when
the remaining recursion levels are nonzero, and a single `LineMeshNode`
record exactly at zero remaining levels; hence the subdivision from one
entry record performs exactly 3 recursion levels (and at most `r` from `r`
remaining levels), visiting finitely many invocations. -/
theorem snowflake_recursion_depth_limited :
    snowflakeNodeMaxRecursionDepth = 3
    ∧ maxSnowflakeRecursions = 3
    ∧ (∀ r : Nat, snowflakeNodeOutputs r
        = if r = 0 then { snowflakeRecords := 0, triangleRecords := 0, lineRecords := 1 }
          else { snowflakeRecords := 4, triangleRecords := 1, lineRecords := 0 })
    ∧ (∀ r : Nat, snowflakeSubtreeLevels r ≤ r)
    ∧ snowflakeSubtreeLevels maxSnowflakeRecursions = 3
    ∧ snowflakeSubtreeInvocations maxSnowflakeRecursions = 85
    ∧ entryNodeOutputs.snowflakeRecords
        * snowflakeSubtreeLineRecords maxSnowflakeRecursions = 192 := by
  refine ⟨rfl, rfl, ?_, ?_, by decide, by decide, by decide⟩
  · intro r
    cases r with
    | zero => rfl
    | succ m => rfl
  · intro r
    induction r with
    | zero => simp [snowflakeSubtreeLevels]
    | succ m ih =>
      have h4 : (snowflakeNodeOutputs (m + 1)).snowflakeRecords = 4 := by
        simp [snowflakeNodeOutputs, boolToUint]
      show (if (snowflakeNodeOutputs (m + 1)).snowflakeRecords = 0 then 0
            else 1 + snowflakeSubtreeLevels m) ≤ m + 1
      rw [h4]
      simp only [OfNat.ofNat_ne_zero, if_false]
      omega

/-- Claim C5: a successful `Initialize` performs its seven setup steps
exactly once each, in the fixed source order, with no step repeated or
skipped. -/
theorem init_performs_steps_once_in_order :
    ∀ env : InitEnv, (initRun env).2 = none →
      (initRun env).1 = initStepOrder
      ∧ initStepOrder
          = [InitStep.enableExperimentalFeatures, InitStep.initDirectX,
             InitStep.checkWorkGraphMeshNodeSupport, InitStep.compileWorkGraphLibrary,
             InitStep.compilePixelShaderLibrary, InitStep.createGWGStateObject,
             InitStep.prepareWorkGraph]
      ∧ initStepOrder.Nodup :=
  fun env h => ⟨runInitSteps_complete env initStepOrder h, rfl, by decide⟩

/-- Witness for C5 at the all-success environment. -/
theorem init_performs_steps_once_in_order_witness :
    (initRun okInitEnv).1 = initStepOrder :=
  (init_performs_steps_once_in_order okInitEnv rfl).1

/-- Claim C6: the swap chain extents, the depth buffer extents, the
viewport and the scissor rectangle all equal the single compile-time
constant `WindowSize = 720`, and each frame sets exactly these viewport
and scissor extents. -/
theorem window_size_fixes_all_surfaces :
    WindowSize = 720
    ∧ swapChainDesc.width = WindowSize ∧ swapChainDesc.height = WindowSize
    ∧ depthResourceExtents.width = WindowSize ∧ depthResourceExtents.height = WindowSize
    ∧ viewport.width = WindowSize ∧ viewport.height = WindowSize
    ∧ scissorRect.right = WindowSize ∧ scissorRect.bottom = WindowSize
    ∧ (∀ desc : SetProgramDesc,
        Cmd.setViewports 1 WindowSize WindowSize ∈ (recordCommandList desc).1
        ∧ Cmd.setScissorRects 1 WindowSize WindowSize ∈ (recordCommandList desc).1) := by
  refine ⟨rfl, rfl, rfl, rfl, rfl, rfl, rfl, rfl, rfl, ?_⟩
  intro desc
  exact ⟨by simp [recordCommandList], by simp [recordCommandList]⟩

/-- Claim C7: every successful `WaitForPreviousFrame` signals the fence
with the current `fenceValue_`, increments `fenceValue_` by exactly one
(modulo the UINT64 wrap), blocks on the fence event exactly when the
signaled value has not yet completed, and returns only once the signaled
value has completed. -/
theorem wait_signals_increments_and_blocks :
    ∀ (env : RenderEnv) (fenceValue : Nat) (w : WaitOutcome),
      waitForPreviousFrame env fenceValue = .ok w →
      w.signaled = fenceValue
      ∧ w.newFenceValue = (fenceValue + 1) % UINT64_MOD
      ∧ (fenceValue + 1 < UINT64_MOD → w.newFenceValue = fenceValue + 1)
      ∧ (FrameEv.fenceEventWait fenceValue ∈ w.events
          ↔ env.completedFenceValue < fenceValue)
      ∧ fenceValue ≤ w.completedAtReturn := by
  intro env fv w h
  obtain ⟨hsig, hinc, hcompl, -, hif⟩ := waitForPreviousFrame_spec env fv w h
  refine ⟨hsig, hinc, ?_, ?_, hcompl⟩
  · intro hlt
    rw [hinc]
    exact Nat.mod_eq_of_lt hlt
  · by_cases hq : env.completedFenceValue < fv
    · rw [if_pos hq] at hif
      simp [hif, hq]
    · rw [if_neg hq] at hif
      simp [hif, hq]

/-- Witness for C7 at a concrete environment: with completed value 0 and
`fenceValue_ = 1`, the call signals 1 and increments the fence value to 2. -/
theorem wait_signals_increments_and_blocks_witness :
    waitOutcomeW.signaled = 1 ∧ waitOutcomeW.newFenceValue = 2 :=
  ⟨(wait_signals_increments_and_blocks okRenderEnv 1 waitOutcomeW rfl).1,
   (wait_signals_increments_and_blocks okRenderEnv 1 waitOutcomeW rfl).2.2.1 (by decide)⟩

/-- Claim C8: the set-program description carries the initialize flag only
for the very first recorded frame; from the first `RecordCommandList` call
on, the member's flag field is the none flag, and no later frame ever sets
it back — and every frame's recorded commands do contain the `SetProgram`
of the current description. -/
theorem setProgram_init_flag_only_first_frame :
    ∀ (maxSizeInBytes backingMemoryAddress n : Nat),
      (setProgramDescAfterFrames maxSizeInBytes backingMemoryAddress n).workGraph.flags
        = (if n = 0 then WorkGraphFlags.flagInit else WorkGraphFlags.flagNone)
      ∧ Cmd.setProgram (setProgramDescAfterFrames maxSizeInBytes backingMemoryAddress n)
          ∈ (recordCommandList (setProgramDescAfterFrames maxSizeInBytes backingMemoryAddress n)).1 := by
  intro maxSize addr n
  refine ⟨?_, by simp [recordCommandList]⟩
  cases n with
  | zero => rfl
  | succ m => rfl

/-- Claim C9: `PrepareWorkGraph` allocates a backing-memory buffer iff the
queried `MaxSizeInBytes` is positive; when it allocates, the description's
`BackingMemory` range has exactly that size, and when it does not, the
`BackingMemory` field keeps its zero initialization. -/
theorem prepareWorkGraph_backing_memory :
    ∀ (maxSizeInBytes backingMemoryAddress : Nat),
      ((prepareWorkGraphDesc maxSizeInBytes backingMemoryAddress).allocatedBackingMemorySize
          = some maxSizeInBytes ↔ 0 < maxSizeInBytes)
      ∧ ((prepareWorkGraphDesc maxSizeInBytes backingMemoryAddress).allocatedBackingMemorySize
          = none ↔ maxSizeInBytes = 0)
      ∧ (0 < maxSizeInBytes →
          (prepareWorkGraphDesc maxSizeInBytes backingMemoryAddress).desc.workGraph.backingMemory
            = ⟨backingMemoryAddress, maxSizeInBytes⟩)
      ∧ (maxSizeInBytes = 0 →
          (prepareWorkGraphDesc maxSizeInBytes backingMemoryAddress).desc.workGraph.backingMemory
            = ⟨0, 0⟩) := by
  intro m a
  by_cases h : 0 < m
  · simp [prepareWorkGraphDesc, h]
    omega
  · simp [prepareWorkGraphDesc, h]
    omega

/-- Witness for C9 at a concrete requirement: with `MaxSizeInBytes = 2048`
at address 65536, the backing memory range is exactly that buffer. -/
theorem prepareWorkGraph_backing_memory_witness :
    (prepareWorkGraphDesc 2048 65536).desc.workGraph.backingMemory = ⟨65536, 2048⟩ :=
  (prepareWorkGraph_backing_memory 2048 65536).2.2.1 (by decide)

/-- Claim C10: `PrepareWorkGraph` declares at most 1 input record
(`SetMaximumInputRecords(workGraphIndex, 1, 1)`), and every recorded
dispatch submits exactly 1 record — within the declared maximum — with
zero record stride and a null record pointer. -/
theorem dispatch_within_declared_input_limit :
    ∀ desc : SetProgramDesc,
      declaredMaxInputRecords = 1
      ∧ declaredMaxNodeInputs = 1
      ∧ (recordCommandList desc).1.filter Cmd.isDispatchGraph
          = [Cmd.dispatchGraph dispatchGraphDesc]
      ∧ dispatchGraphDesc.numRecords = 1
      ∧ dispatchGraphDesc.numRecords ≤ declaredMaxInputRecords
      ∧ dispatchGraphDesc.recordStrideInBytes = 0
      ∧ dispatchGraphDesc.recordsIsNull = true :=
  fun _ => ⟨rfl, rfl, rfl, rfl, by decide, rfl, rfl⟩

end HelloMeshNodes
